import Mathlib

/-!
Verification development for the SimiluBot music subsystem
(`similubot/music/seek_manager.py`, `catbox_client.py`, `youtube_client.py`,
`music_player.py`).

The Python code is shallowly embedded: pure helpers become Lean functions,
`float` values are modelled as `ℚ` (no rounding is relevant to any property
proved here), Python dicts keyed by guild id become functions
`Int → Option _` (a dict structurally holds at most one value per key),
and fallible external collaborators (Discord voice API, queue manager,
HTTP, pytubefix) are modelled as `Except`-valued oracles so that a raised
exception is an explicit `.error`.
-/

namespace SimiluBot

/-! ## Generic helpers -/

/-- Python `str.strip()` on a character list: drop whitespace from both ends.
(Python strips the full Unicode whitespace class; `Char.isWhitespace` covers
the ASCII subset, which is all that the properties below depend on.) -/
def pyStrip (l : List Char) : List Char :=
  ((l.dropWhile Char.isWhitespace).reverse.dropWhile Char.isWhitespace).reverse

/-- Point update of a dict modelled as a function into `Option`. -/
def setAt {α : Type} (f : Int → Option α) (g : Int) (v : Option α) : Int → Option α :=
  fun g' => if g' = g then v else f g'

/-! ## `seek_manager.py` — `SeekResult` and `SeekManager` -/

/-- `SeekResult` dataclass (`seek_manager.py` lines 9-14). -/
structure SeekResult where
  success : Bool
  targetPosition : Option ℚ := none
  errorMessage : Option String := none
deriving DecidableEq

/-- Value of a decimal digit string, as computed by Python `int()` on a
string of ASCII digits. -/
def digitsToNat (l : List Char) : Nat :=
  l.foldl (fun a c => 10 * a + (c.toNat - 48)) 0

/-- All characters are decimal digits (`\d` of the source regexes; Python's
`\d` additionally accepts non-ASCII decimal digits, which none of the
properties below depend on). -/
def allDigits (l : List Char) : Bool :=
  l.all Char.isDigit

/-- A regex group `\d{1,2}`. -/
def grpUpTo2 (l : List Char) : Bool :=
  (l.length == 1 || l.length == 2) && allDigits l

/-- A regex group `\d{2}`. -/
def grpExact2 (l : List Char) : Bool :=
  (l.length == 2) && allDigits l

/-- Split a character list at every `':'` (the colon separators of the
`[hh:]mm:ss` patterns; a digit group can never contain `':'`, so the
anchored regexes of the source match exactly the splits checked below). -/
def splitColon : List Char → List (List Char)
  | [] => [[]]
  | c :: rest =>
    if c = ':' then [] :: splitColon rest
    else
      match splitColon rest with
      | [] => [[c]]
      | p :: ps => (c :: p) :: ps

/-- `TIME_ABSOLUTE_PATTERN = ^(?:(\d{1,2}):)?(\d{1,2}):(\d{2})$`
(`seek_manager.py` line 26).  Returns the groups `(hours?, minutes, seconds)`
on a whole-string match. -/
def matchAbsoluteTime (l : List Char) : Option (Option (List Char) × List Char × List Char) :=
  match splitColon l with
  | [m, s] => if grpUpTo2 m && grpExact2 s then some (none, m, s) else none
  | [h, m, s] =>
    if grpUpTo2 h && grpUpTo2 m && grpExact2 s then some (some h, m, s) else none
  | _ => none

/-- `TIME_RELATIVE_PATTERN = ^([+-])(?:(\d{1,2}):)?(\d{1,2}):(\d{2})$`
(`seek_manager.py` line 27). -/
def matchRelativeTime (l : List Char) : Option (Char × Option (List Char) × List Char × List Char) :=
  match l with
  | [] => none
  | c :: rest =>
    if c = '+' || c = '-' then
      (matchAbsoluteTime rest).map (fun g => (c, g))
    else none

/-- `TIME_SECONDS_ONLY_PATTERN = ^([+-])?(\d+)$` (`seek_manager.py` line 28). -/
def matchSecondsOnly (l : List Char) : Option (Option Char × List Char) :=
  match l with
  | [] => none
  | c :: rest =>
    if c = '+' || c = '-' then
      if !rest.isEmpty && allDigits rest then some (some c, rest) else none
    else if allDigits (c :: rest) then some (none, c :: rest) else none

/-- `SeekManager._parse_time_components` (`seek_manager.py` lines 91-137).
`int()` on a regex digit group cannot raise, so the `except ValueError`
branch is dead; the `h < 0 or m < 0 or s < 0` check is likewise vacuous on
digit groups and the components are modelled as `Nat`. -/
def parseTimeComponents (sign : Option Char) (hours : Option (List Char))
    (minutes seconds : List Char) (isRelative : Bool) : SeekResult :=
  let h := match hours with
    | some hs => digitsToNat hs
    | none => 0
  let m := digitsToNat minutes
  let s := digitsToNat seconds
  if m ≥ 60 then
    ⟨false, none, some ("Minutes must be less than 60: " ++ toString m)⟩
  else if s ≥ 60 then
    ⟨false, none, some ("Seconds must be less than 60: " ++ toString s)⟩
  else
    let total : Int := h * 3600 + m * 60 + s
    let total := if isRelative && sign == some '-' then -total else total
    ⟨true, some (total : ℚ), none⟩

/-- `SeekManager.parse_seek_time` (`seek_manager.py` lines 34-89). -/
def parseSeekTime (timeStr : String) : SeekResult :=
  let l := pyStrip timeStr.data
  if l.isEmpty then
    ⟨false, none, some "Empty time string"⟩
  else
    match matchRelativeTime l with
    | some (sign, h, m, s) => parseTimeComponents (some sign) h m s true
    | none =>
      match matchAbsoluteTime l with
      | some (h, m, s) => parseTimeComponents none h m s false
      | none =>
        match matchSecondsOnly l with
        | some (sign, digits) =>
          let n : Int := digitsToNat digits
          let n := if sign == some '-' then -n else n
          ⟨true, some (n : ℚ), none⟩
        | none => ⟨false, none, some ("Invalid time format: " ++ String.mk l)⟩

/-- Python `f"{n:02d}"` for a non-negative integer. -/
def pad2 (n : Nat) : String :=
  if n < 10 then "0" ++ toString n else toString n

/-- The ASCII character of a decimal digit. -/
def dchar (d : Nat) : Char :=
  Char.ofNat (48 + d)

/-- Python float `%` for the non-negative arguments reached below. -/
def qmod (a b : ℚ) : ℚ :=
  a - b * ⌊a / b⌋

/-- Non-negative branch of `SeekManager.format_time` (`seek_manager.py`
lines 211-218).  `int(x // y)` and `int(x % y)` agree with `⌊·⌋` on the
non-negative values reached here. -/
def formatTimeCore (seconds : ℚ) : String :=
  let hours := (⌊seconds / 3600⌋).toNat
  let minutes := (⌊qmod seconds 3600 / 60⌋).toNat
  let secs := (⌊qmod seconds 60⌋).toNat
  if hours > 0 then
    pad2 hours ++ ":" ++ pad2 minutes ++ ":" ++ pad2 secs
  else
    pad2 minutes ++ ":" ++ pad2 secs

/-- `SeekManager.format_time` (`seek_manager.py` lines 197-218). -/
def formatTime (seconds : ℚ) : String :=
  if seconds < 0 then "-" ++ formatTimeCore (-seconds) else formatTimeCore seconds

/-- `SeekManager.validate_seek_position` (`seek_manager.py` lines 139-178). -/
def validateSeekPosition (targetSeconds currentPosition songDuration : ℚ)
    (isRelative : Bool) : SeekResult :=
  let absolutePosition := if isRelative then currentPosition + targetSeconds else targetSeconds
  if absolutePosition < 0 then
    ⟨false, none, some ("Cannot seek to negative position: " ++ formatTime absolutePosition)⟩
  else if absolutePosition > songDuration then
    ⟨false, none, some ("Cannot seek beyond song duration: " ++ formatTime absolutePosition
      ++ " > " ++ formatTime songDuration)⟩
  else
    ⟨true, some absolutePosition, none⟩

/-- `SeekManager.is_relative_seek` (`seek_manager.py` lines 180-195). -/
def isRelativeSeek (timeStr : String) : Bool :=
  let l := pyStrip timeStr.data
  (matchRelativeTime l).isSome ||
    ((matchSecondsOnly l).isSome && (l.head? == some '+' || l.head? == some '-'))

/-! ## `youtube_client.py` — filename sanitisation and `download_audio` -/

/-- The `invalid_chars = '<>:"/\\|?*'` of `YouTubeClient._sanitize_filename`. -/
def invalidFilenameChars : List Char :=
  ['<', '>', ':', '"', '/', '\\', '|', '?', '*']

/-- The sequential `str.replace(char, '_')` loop of `_sanitize_filename`
(`youtube_client.py` lines 456-458).  Since the replacement `'_'` is not
itself an invalid character, the sequence of replaces equals a single
pointwise map. -/
def replaceInvalidChars (filename : String) : List Char :=
  filename.data.map (fun c => if invalidFilenameChars.contains c then '_' else c)

/-- `YouTubeClient._sanitize_filename` (`youtube_client.py` lines 445-467):
replace invalid characters, `strip()[:100]`, default to `"audio"` when empty. -/
def sanitizeFilename (filename : String) : String :=
  let stripped := pyStrip (replaceInvalidChars filename)
  let truncated := stripped.take 100
  if truncated.isEmpty then "audio" else String.mk truncated

/-- A Python exception value as observed by the `except` clauses of
`download_audio`: whether it is a `PytubeFixError`, and its `str(e)`. -/
structure PyExn where
  isPytubeFix : Bool
  msg : String
deriving DecidableEq

/-- Lower-casing as used by `_is_bot_detection_error` (ASCII; the indicator
strings are ASCII). -/
def toLowerStr (s : String) : String :=
  String.mk (s.data.map Char.toLower)

/-- `needle` occurs as a contiguous substring of `hay` (Python `in` on str). -/
def containsSub (needle : List Char) : List Char → Bool
  | [] => needle.isEmpty
  | c :: t => needle.isPrefixOf (c :: t) || containsSub needle t

/-- The `bot_detection_indicators` list of `YouTubeClient._is_bot_detection_error`
(`youtube_client.py` lines 191-197). -/
def botDetectionIndicators : List String :=
  ["detected as a bot", "Use `use_po_token=True`", "switch to WEB client",
   "bot detection", "HTTP Error 403"]

/-- `YouTubeClient._is_bot_detection_error` (`youtube_client.py` lines 181-200). -/
def isBotDetectionError (errorMessage : String) : Bool :=
  botDetectionIndicators.any
    (fun ind => containsSub (toLowerStr ind).data (toLowerStr errorMessage).data)

/-- The fields of a `pytubefix.YouTube` object read by `download_audio`.
`none` models a Python `None`/falsy attribute (`yt.title or "Unknown Title"`). -/
structure YTHandle where
  title : Option String
  length : Option Nat
  author : Option String
deriving DecidableEq

/-- An audio stream as used by `download_audio` (`stream.subtype` names the
file extension). -/
structure YTStream where
  subtype : String
deriving DecidableEq

/-- `AudioInfo` dataclass (`youtube_client.py` lines 109-117), restricted to
the fields `download_audio` fills from the objects modelled here. -/
structure AudioInfo where
  title : String
  duration : Nat
  filePath : String
  url : String
  uploader : String
deriving DecidableEq

/-- `YouTubeClient._create_youtube_object` (`youtube_client.py` lines
252-292): try the pytubefix `YouTube` constructor for the current attempt
(`construct n` models the constructor call of attempt `n`, with the kwargs
of `_get_youtube_kwargs`); on a `PytubeFixError` whose message is a
bot-detection error, with a config present and auto-fallback enabled,
re-attempt with `attempt + 1` while `attempt < 2`; otherwise re-raise (a
non-`PytubeFixError` exception is not caught at all and likewise
propagates).  Returns the result together with the number of constructor
attempts made.  The structural `fuel` argument only bounds the recursion;
the top-level call's fuel 2 is never exhausted because the `attempt < 2`
guard admits at most two recursive steps. -/
def createYouTubeObjectFrom (construct : Nat → Except PyExn YTHandle)
    (hasConfig autoFallback : Bool) : Nat → Nat → Except PyExn YTHandle × Nat
  | attempt, fuel =>
    match construct attempt with
    | .ok yt => (.ok yt, 1)
    | .error e =>
      if e.isPytubeFix && isBotDetectionError e.msg && hasConfig && autoFallback
          && attempt < 2 then
        match fuel with
        | 0 => (.error e, 1)
        | fuel' + 1 =>
          let r := createYouTubeObjectFrom construct hasConfig autoFallback (attempt + 1) fuel'
          (r.1, r.2 + 1)
      else (.error e, 1)

/-- The top-level `_create_youtube_object` call (`attempt = 0`, as invoked
by `extract_audio_info` and `download_audio`). -/
def createYouTubeObject (construct : Nat → Except PyExn YTHandle)
    (hasConfig autoFallback : Bool) : Except PyExn YTHandle × Nat :=
  createYouTubeObjectFrom construct hasConfig autoFallback 0 2

/-- Environment of external effects performed by `YouTubeClient.download_audio`:
each oracle is `Except PyExn _`, an `.error` modelling a raised exception. -/
structure DownloadEnv where
  isYT : String → Bool
  /-- `_create_youtube_object` — returns the object, `none` for the defensive
  `if not yt` check, or raises. -/
  createYouTube : Except PyExn (Option YTHandle)
  /-- `yt.streams.filter(only_audio=True, file_extension='m4a').first()`. -/
  m4aStream : YTHandle → Except PyExn (Option YTStream)
  /-- `yt.streams.get_audio_only()`. -/
  anyAudioStream : YTHandle → Except PyExn (Option YTStream)
  /-- `audio_stream.download(...)` — `none` models a falsy returned path. -/
  download : YTStream → String → Except PyExn (Option String)

/-- The `try` body of `download_audio` (`youtube_client.py` lines 367-424).
Progress-tracker bookkeeping is local object mutation and is not modelled. -/
def downloadAudioBody (env : DownloadEnv) (url : String) :
    Except PyExn (Bool × Option AudioInfo × Option String) := do
  let yt? ← env.createYouTube
  match yt? with
  | none => return (false, none, some "Failed to create YouTube object")
  | some yt =>
    let s1 ← env.m4aStream yt
    let stream? ← match s1 with
      | some s => pure (some s)
      | none => env.anyAudioStream yt
    match stream? with
    | none => return (false, none, some "No audio stream available")
    | some stream =>
      let safeTitle := sanitizeFilename (yt.title.getD "audio")
      let filename := safeTitle ++ "." ++ stream.subtype
      let path? ← env.download stream filename
      match path? with
      | none => return (false, none, some "Download failed: No file path returned")
      | some path =>
        return (true,
          some ⟨yt.title.getD "Unknown Title", yt.length.getD 0, path, url,
                yt.author.getD "Unknown"⟩,
          none)

/-- `YouTubeClient.download_audio` (`youtube_client.py` lines 344-443): URL
guard, then the `try` body with its `except PytubeFixError` /
`except Exception` handlers. -/
def downloadAudio (env : DownloadEnv) (url : String) :
    Bool × Option AudioInfo × Option String :=
  if !env.isYT url then
    (false, none, some ("Invalid YouTube URL: " ++ url))
  else
    match downloadAudioBody env url with
    | .ok r => r
    | .error e =>
      if e.isPytubeFix then
        if isBotDetectionError e.msg then
          (false, none, some "Bot detection error - PoToken configuration may be required")
        else
          (false, none, some ("PytubeFixError downloading " ++ url ++ ": " ++ e.msg))
      else
        (false, none, some ("Unexpected error downloading " ++ url ++ ": " ++ e.msg))

/-! ## `catbox_client.py` — HEAD retry, URL validation pipeline -/

/-- An HTTP response as observed by the code below (only `.status` is read). -/
structure HeadResponse where
  status : Nat
deriving DecidableEq

/-- The `for attempt in range(max_retries + 1)` loop of
`CatboxClient._make_head_request_with_retry` (`catbox_client.py` lines
164-184).  `env attempt = some r` models the HEAD request of that attempt
returning `r`; `none` models it raising `aiohttp.ClientError`.  Returns
`(result, sleeps performed, attempts made)`; the recursion is over the
remaining loop iterations. -/
def headRetryFrom (env : Nat → Option HeadResponse) (maxRetries : Nat) :
    Nat → Nat → Option HeadResponse × List Nat × Nat
  | 0, _ => (none, [], 0)
  | remaining + 1, attempt =>
    match env attempt with
    | some r => (some r, [], 1)
    | none =>
      if attempt < maxRetries then
        let (res, waits, cnt) := headRetryFrom env maxRetries remaining (attempt + 1)
        (res, 2 ^ attempt :: waits, cnt + 1)
      else
        (none, [], 1)

/-- `CatboxClient._make_head_request_with_retry` (`catbox_client.py` lines
150-184); the source's default is `max_retries = 2`, and both call sites use
the default. -/
def makeHeadRequestWithRetry (env : Nat → Option HeadResponse)
    (maxRetries : Nat := 2) : Option HeadResponse × List Nat × Nat :=
  headRetryFrom env maxRetries (maxRetries + 1) 0

/-- `CatboxAudioInfo` dataclass (`catbox_client.py` lines 48-58). -/
structure CatboxAudioInfo where
  title : String
  duration : Nat
  filePath : String
  url : String
  uploader : String
  fileSize : Option Nat := none
  fileFormat : Option String := none
deriving DecidableEq

/-- Environment of external effects performed by
`CatboxClient.validate_audio_file`.  `extract_audio_info` is the client's own
method but performs network I/O, so it is an oracle here; `headRequest`
models `_make_head_request_with_retry` (which may itself raise only outside
its `except aiohttp.ClientError`, e.g. during session creation). -/
structure ValidateEnv where
  isCB : String → Bool
  extractInfo : String → Except String (Option CatboxAudioInfo)
  headRequest : String → Except String (Option HeadResponse)

/-- The `try` body of `validate_audio_file` (`catbox_client.py` lines 341-393). -/
def validateAudioFileBody (env : ValidateEnv) (url : String) :
    Except String (Bool × Option CatboxAudioInfo × Option String) := do
  let info? ← env.extractInfo url
  match info? with
  | none => return (false, none, some "Failed to extract audio information from Catbox URL")
  | some info =>
    let resp? ← env.headRequest url
    match resp? with
    | none => return (false, none, some "Failed to connect to Catbox server after retries")
    | some resp =>
      if resp.status ≠ 200 then
        let base := "Catbox file not accessible (HTTP " ++ toString resp.status ++ ")"
        let msg :=
          if resp.status = 403 then base ++ " - Possible anti-bot detection"
          else if resp.status = 429 then base ++ " - Rate limited"
          else if resp.status = 404 then base ++ " - File not found"
          else base
        return (false, none, some msg)
      else
        return (true, some info, none)

/-- `CatboxClient.validate_audio_file` (`catbox_client.py` lines 318-399):
URL guard, then the `try` body with its catch-all `except Exception`. -/
def validateAudioFile (env : ValidateEnv) (url : String) :
    Bool × Option CatboxAudioInfo × Option String :=
  if !env.isCB url then
    (false, none, some ("Invalid Catbox URL: " ++ url))
  else
    match validateAudioFileBody env url with
    | .ok r => r
    | .error e => (false, none, some ("Error validating Catbox URL " ++ url ++ ": " ++ e))

/-! ## `music_player.py` — source detection, queueing, playback state -/

/-- `AudioSourceType` (from `audio_source.py`, whose file is not among the
reviewed sources). Modelled from the spec: the two audio sources are YouTube
and Catbox. -/
inductive AudioSourceType
  | youtube
  | catbox
deriving DecidableEq

/-- `UnifiedAudioInfo` (from `audio_source.py`, not among the reviewed
sources). Modelled from the spec: a simple song-metadata value record; only
its identity flows through `add_song_to_queue`. -/
structure UnifiedAudioInfo where
  title : String
deriving DecidableEq

/-- `MusicPlayer.detect_audio_source_type` (`music_player.py` lines 81-96),
parametrised by the two URL predicates `YouTubeClient.is_youtube_url` and
`CatboxClient.is_catbox_url`. -/
def detectAudioSourceType (isYT isCB : String → Bool) (url : String) :
    Option AudioSourceType :=
  if isYT url then some .youtube
  else if isCB url then some .catbox
  else none

/-- The external calls `add_song_to_queue` can perform, in order; the trace
of calls makes "the guild's queue was not touched" and "execution proceeded
past the source-type check" directly observable. -/
inductive MusicCall
  | extractYouTubeInfo (url : String)
  | extractCatboxInfo (url : String)
  | queueAddSong
  | resetTimer
  | isPlayingQuery
  | beginPlayback
deriving DecidableEq

/-- Environment of external effects performed by
`MusicPlayer.add_song_to_queue`; every oracle may raise (`.error`). -/
structure AddSongEnv where
  isYT : String → Bool
  isCB : String → Bool
  /-- `youtube_client.extract_audio_info` (`None` on failure). -/
  extractYouTubeInfo : String → Except String (Option UnifiedAudioInfo)
  /-- `catbox_client.extract_audio_info` (`None` on failure). -/
  extractCatboxInfo : String → Except String (Option UnifiedAudioInfo)
  /-- `queue_manager.add_song`, returning the queue position. -/
  queueAdd : UnifiedAudioInfo → Except String Nat
  /-- `voice_manager.is_playing`. -/
  isPlaying : Except String Bool
  /-- `_start_playback`. -/
  beginPlayback : Except String Unit

/-- The `try` body of `add_song_to_queue` (`music_player.py` lines 129-166),
returning the result (or the raised exception) together with the trace of
external calls performed. -/
def addSongBody (env : AddSongEnv) (url : String) :
    Except String (Bool × Option Nat × Option String) × List MusicCall :=
  match detectAudioSourceType env.isYT env.isCB url with
  | none =>
    (.ok (false, none,
      some "Unsupported URL format. Please provide a YouTube or Catbox audio file URL."), [])
  | some st =>
    let (r, tr) :=
      match st with
      | .youtube => (env.extractYouTubeInfo url, [MusicCall.extractYouTubeInfo url])
      | .catbox => (env.extractCatboxInfo url, [MusicCall.extractCatboxInfo url])
    match r with
    | .error e => (.error e, tr)
    | .ok none => (.ok (false, none, some "Failed to extract audio information from URL"), tr)
    | .ok (some info) =>
      match env.queueAdd info with
      | .error e => (.error e, tr ++ [.queueAddSong])
      | .ok pos =>
        let tr := tr ++ [MusicCall.queueAddSong, MusicCall.resetTimer]
        match env.isPlaying with
        | .error e => (.error e, tr ++ [.isPlayingQuery])
        | .ok playing =>
          if playing then (.ok (true, some pos, none), tr ++ [.isPlayingQuery])
          else
            match env.beginPlayback with
            | .error e => (.error e, tr ++ [.isPlayingQuery, .beginPlayback])
            | .ok _ => (.ok (true, some pos, none), tr ++ [.isPlayingQuery, .beginPlayback])

/-- `MusicPlayer.add_song_to_queue` (`music_player.py` lines 110-171): the
`try` body with its catch-all `except Exception` handler. -/
def addSongToQueue (env : AddSongEnv) (url : String) :
    (Bool × Option Nat × Option String) × List MusicCall :=
  match addSongBody env url with
  | (.ok r, tr) => (r, tr)
  | (.error e, tr) => ((false, none, some ("Error adding song to queue: " ++ e)), tr)

/-- Environment of external effects for `MusicPlayer.skip_current_song`. -/
structure SkipEnv where
  /-- `queue_manager.get_current_song` — the current song's title, if any. -/
  getCurrentSong : Except String (Option String)
  stopAudio : Except String Unit
  cleanupCurrentAudio : Except String Unit

/-- The `try` body of `skip_current_song` (`music_player.py` lines 210-224). -/
def skipCurrentSongBody (env : SkipEnv) :
    Except String (Bool × Option String × Option String) := do
  let cur ← env.getCurrentSong
  match cur with
  | none => return (false, none, some "No song is currently playing")
  | some title =>
    let _ ← env.stopAudio
    let _ ← env.cleanupCurrentAudio
    return (true, some title, none)

/-- `MusicPlayer.skip_current_song` (`music_player.py` lines 200-229). -/
def skipCurrentSong (env : SkipEnv) : Bool × Option String × Option String :=
  match skipCurrentSongBody env with
  | .ok r => r
  | .error e => (false, none, some ("Error skipping song: " ++ e))

/-- Environment of external effects for `MusicPlayer.stop_playback`. -/
structure StopEnv where
  stopAudio : Except String Unit
  clearQueue : Except String Nat
  cleanupGuildState : Except String Unit
  disconnect : Except String Unit

/-- The `try` body of `stop_playback` (`music_player.py` lines 241-256). -/
def stopPlaybackBody (env : StopEnv) : Except String (Bool × Option String) := do
  let _ ← env.stopAudio
  let _ ← env.clearQueue
  let _ ← env.cleanupGuildState
  let _ ← env.disconnect
  return (true, none)

/-- `MusicPlayer.stop_playback` (`music_player.py` lines 231-261). -/
def stopPlayback (env : StopEnv) : Bool × Option String :=
  match stopPlaybackBody env with
  | .ok r => r
  | .error e => (false, some ("Error stopping playback: " ++ e))

/-- Environment of external effects for `MusicPlayer.jump_to_position`. -/
structure JumpEnv where
  stopAudio : Except String Unit
  cleanupCurrentAudio : Except String Unit
  /-- `queue_manager.jump_to_position` — the selected song's title, if valid. -/
  jumpTo : Int → Except String (Option String)

/-- The `try` body of `jump_to_position` (`music_player.py` lines 274-289). -/
def jumpToPositionBody (env : JumpEnv) (position : Int) :
    Except String (Bool × Option String × Option String) := do
  let _ ← env.stopAudio
  let _ ← env.cleanupCurrentAudio
  let song? ← env.jumpTo position
  match song? with
  | none => return (false, none, some ("Invalid queue position: " ++ toString position))
  | some title => return (true, some title, none)

/-- `MusicPlayer.jump_to_position` (`music_player.py` lines 263-294). -/
def jumpToPosition (env : JumpEnv) (position : Int) :
    Bool × Option String × Option String :=
  match jumpToPositionBody env position with
  | .ok r => r
  | .error e =>
    (false, none, some ("Error jumping to position " ++ toString position ++ ": " ++ e))

/-- Environment of external effects for `MusicPlayer.seek_to_position`.
`currentPosition` models `get_current_playback_position` (the player's own
pure timing computation, proved separately for C4). -/
structure SeekEnv where
  isConnected : Except String Bool
  /-- `queue_manager.get_current_song` — `(title, duration)`, if any. -/
  getCurrentSong : Except String (Option (String × Nat))
  currentPosition : Option ℚ
  /-- `_perform_seek` (which catches internally and returns a bool, but is
  modelled as possibly raising for generality). -/
  performSeek : ℚ → Except String Bool

/-- The `try` body of `seek_to_position` (`music_player.py` lines 411-451).
`self.get_current_playback_position(guild_id) or 0.0` maps both `None` and
`0.0` to `0.0`, which `Option.getD 0` reproduces. -/
def seekToPositionBody (env : SeekEnv) (timeStr : String) :
    Except String (Bool × Option String) := do
  let conn ← env.isConnected
  if !conn then
    return (false, some "No active music playback")
  else
    let cur ← env.getCurrentSong
    match cur with
    | none => return (false, some "No song currently playing")
    | some (_, duration) =>
      let seekResult := parseSeekTime timeStr
      match seekResult.success, seekResult.targetPosition with
      | true, some target =>
        let currentPosition := env.currentPosition.getD 0
        let isRel := isRelativeSeek timeStr
        let validation := validateSeekPosition target currentPosition (duration : ℚ) isRel
        match validation.success, validation.targetPosition with
        | true, some validated => do
          let ok ← env.performSeek validated
          if ok then return (true, none)
          else return (false, some "Failed to seek to position")
        | _, _ => return (false, some (validation.errorMessage.getD "Invalid seek position"))
      | _, _ => return (false, some (seekResult.errorMessage.getD "Failed to parse seek time"))

/-- `MusicPlayer.seek_to_position` (`music_player.py` lines 400-456). -/
def seekToPosition (env : SeekEnv) (timeStr : String) : Bool × Option String :=
  match seekToPositionBody env timeStr with
  | .ok r => r
  | .error e => (false, some ("Error seeking to position: " ++ e))

/-! ## `music_player.py` — per-guild task and timer bookkeeping -/

/-- The task/timer bookkeeping of `MusicPlayer`.  The dicts
`_playback_tasks`, `_inactivity_timers` and `_last_activity_times` are
functions into `Option` (a dict holds at most one value per key by
construction); `asyncio` tasks are identified by allocation order
(`nextTaskId` is the fresh-id source of `asyncio.create_task`) and
`task.cancel()` marks the id in `cancelledTasks`. -/
structure PlayerTasks where
  playbackTasks : Int → Option Nat
  inactivityTimers : Int → Option Nat
  lastActivityTimes : Int → Option ℚ
  cancelledTasks : Nat → Bool
  nextTaskId : Nat

/-- `MusicPlayer._reset_inactivity_timer` (`music_player.py` lines 547-562):
cancel and delete any existing timer for the guild, then record the
activity time. -/
def resetInactivityTimer (s : PlayerTasks) (g : Int) (now : ℚ) : PlayerTasks :=
  let s :=
    match s.inactivityTimers g with
    | some t =>
      { s with
        cancelledTasks := fun t' => if t' = t then true else s.cancelledTasks t',
        inactivityTimers := setAt s.inactivityTimers g none }
    | none => s
  { s with lastActivityTimes := setAt s.lastActivityTimes g (some now) }

/-- `MusicPlayer._start_inactivity_timer` (`music_player.py` lines 564-584):
cancel any existing timer (the source cancels without `del`; the subsequent
dict assignment overwrites the entry), then register a freshly created
timer task. -/
def startInactivityTimer (s : PlayerTasks) (g : Int) : PlayerTasks :=
  let s :=
    match s.inactivityTimers g with
    | some t =>
      { s with cancelledTasks := fun t' => if t' = t then true else s.cancelledTasks t' }
    | none => s
  { s with
    inactivityTimers := setAt s.inactivityTimers g (some s.nextTaskId),
    nextTaskId := s.nextTaskId + 1 }

/-- `MusicPlayer._start_playback` (`music_player.py` lines 657-677): return
immediately if the guild already has a playback task; otherwise reset the
inactivity timer and register a freshly created playback task. -/
def startPlayback (s : PlayerTasks) (g : Int) (now : ℚ) : PlayerTasks :=
  if (s.playbackTasks g).isSome then s
  else
    let s := resetInactivityTimer s g now
    { s with
      playbackTasks := setAt s.playbackTasks g (some s.nextTaskId),
      nextTaskId := s.nextTaskId + 1 }

/-- `MusicPlayer._stop_inactivity_timer` (`music_player.py` lines 618-628). -/
def stopInactivityTimer (s : PlayerTasks) (g : Int) : PlayerTasks :=
  match s.inactivityTimers g with
  | some t =>
    { s with
      cancelledTasks := fun t' => if t' = t then true else s.cancelledTasks t',
      inactivityTimers := setAt s.inactivityTimers g none }
  | none => s

/-- Environment for `MusicPlayer.connect_to_user_channel` (`music_player.py`
lines 173-198): whether the member is in a voice channel, whether that
channel is a proper voice channel (not a stage channel), and whether
`voice_manager.connect_to_voice_channel` returns a client. -/
structure ConnectEnv where
  inVoice : Bool
  isVoiceChannel : Bool
  connectSucceeds : Bool

/-- `MusicPlayer.connect_to_user_channel` (`music_player.py` lines 173-198). -/
def connectToUserChannel (env : ConnectEnv) (s : PlayerTasks) (g : Int) (now : ℚ) :
    (Bool × Option String) × PlayerTasks :=
  if !env.inVoice then
    ((false, some "You must be in a voice channel to use music commands"), s)
  else if !env.isVoiceChannel then
    ((false, some "Bot can only connect to voice channels, not stage channels"), s)
  else if !env.connectSucceeds then
    ((false, some "Failed to connect to voice channel"), s)
  else
    ((true, none), resetInactivityTimer s g now)

/-- The voice-connection state of a guild as sampled by
`_inactivity_timer_task` after its sleep. -/
structure VoiceSnapshot where
  connected : Bool
  playing : Bool
deriving DecidableEq

/-- The wake instant of a timer scheduled at `t0`:
`await asyncio.sleep(timeout_seconds)` completes `timeout` after the start. -/
def timerWakeTime (t0 timeout : ℚ) : ℚ :=
  t0 + timeout

/-- The disconnect decision of `MusicPlayer._inactivity_timer_task`
(`music_player.py` lines 594-607): a cancelled timer never reaches the
check (`asyncio.CancelledError` is raised inside the sleep); otherwise the
bot disconnects exactly when it is still connected and not playing at the
wake instant. -/
def inactivityTimerDisconnects (cancelled : Bool) (v : VoiceSnapshot) : Bool :=
  if cancelled then false else v.connected && !v.playing

/-! ## `music_player.py` — playback timing -/

/-- The timing dicts of `MusicPlayer`: `_playback_start_times`,
`_playback_paused_times` and `_total_paused_duration`. -/
structure TimingState where
  playbackStartTimes : Int → Option ℚ
  playbackPausedTimes : Int → Option ℚ
  totalPausedDuration : Int → Option ℚ

/-- `MusicPlayer._update_timing_after_seek` (`music_player.py` lines
513-534): set the recorded start time to `now - target`, zero the total
paused duration, clear any pause mark. -/
def updateTimingAfterSeek (s : TimingState) (g : Int) (now targetSeconds : ℚ) :
    TimingState :=
  { playbackStartTimes := setAt s.playbackStartTimes g (some (now - targetSeconds)),
    totalPausedDuration := setAt s.totalPausedDuration g (some 0),
    playbackPausedTimes := setAt s.playbackPausedTimes g none }

/-- `MusicPlayer.get_current_playback_position` (`music_player.py` lines
315-342), evaluated at the instant `now` (`time.time()`). -/
def getCurrentPlaybackPosition (s : TimingState) (g : Int) (now : ℚ) : Option ℚ :=
  match s.playbackStartTimes g with
  | none => none
  | some start =>
    let elapsed := now - start
    let totalPaused := (s.totalPausedDuration g).getD 0
    let totalPaused :=
      match s.playbackPausedTimes g with
      | some p => totalPaused + (now - p)
      | none => totalPaused
    some (max 0 (elapsed - totalPaused))

/-! ## `music_player.py` — current audio file bookkeeping -/

/-- The `_current_audio_files` dict together with the list of file paths
handed to `youtube_client.cleanup_file` (which attempts `os.remove`). -/
structure AudioFileState where
  currentAudioFiles : Int → Option String
  removedFiles : List String

/-- The assignment `self._current_audio_files[guild_id] = audio_file_path`
of `_playback_loop` (`music_player.py` line 743): the single per-guild entry
is overwritten when a new song starts. -/
def storeCurrentAudio (s : AudioFileState) (g : Int) (path : String) : AudioFileState :=
  { s with currentAudioFiles := setAt s.currentAudioFiles g (some path) }

/-- `MusicPlayer._cleanup_current_audio` (`music_player.py` lines 792-806):
remove the guild's entry; hand the path to `cleanup_file` only when it is
truthy and does not start with `'http'`. -/
def cleanupCurrentAudio (s : AudioFileState) (g : Int) : AudioFileState :=
  match s.currentAudioFiles g with
  | none => s
  | some path =>
    { currentAudioFiles := setAt s.currentAudioFiles g none,
      removedFiles :=
        if !(path == "") && !path.startsWith "http" then path :: s.removedFiles
        else s.removedFiles }

/-! ## Claim C9 — seek-position validation stays inside the song bounds -/

/-- C9: `validate_seek_position` returns a position inside the song's bounds
or an error: whenever the result has `success = True`, its target position is
`current_position + target_seconds` for a relative seek and `target_seconds`
otherwise, and lies in `[0, song_duration]`; whenever the computed absolute
position is negative or exceeds the duration, the result has
`success = False` with an error message and no target position. -/
theorem validate_seek_position_bounds (t c d : ℚ) (rel : Bool) :
    ((validateSeekPosition t c d rel).success = true →
      (validateSeekPosition t c d rel).targetPosition = some (if rel then c + t else t) ∧
      0 ≤ (if rel then c + t else t) ∧ (if rel then c + t else t) ≤ d) ∧
    ((if rel then c + t else t) < 0 ∨ (if rel then c + t else t) > d →
      (validateSeekPosition t c d rel).success = false ∧
      (validateSeekPosition t c d rel).errorMessage.isSome = true ∧
      (validateSeekPosition t c d rel).targetPosition = none) := by
  unfold validateSeekPosition
  by_cases h1 : (if rel then c + t else t) < 0
  · simp [h1]
  · by_cases h2 : (if rel then c + t else t) > d
    · simp [h1, h2]
    · simp [h1, h2]
      exact ⟨le_of_not_lt h1, le_of_not_lt h2⟩

/-- Witness for C9 at concrete inputs: a relative seek `+10` from position 5
in a 100-second song validates to position 15; an absolute seek to 200 in a
100-second song is rejected with an error message. -/
theorem validate_seek_position_bounds_witness :
    ((validateSeekPosition 10 5 100 true).targetPosition
        = some (if true then 5 + 10 else 10) ∧
      0 ≤ (if true then (5:ℚ) + 10 else 10) ∧ (if true then (5:ℚ) + 10 else 10) ≤ 100) ∧
    ((validateSeekPosition 200 5 100 false).success = false ∧
      (validateSeekPosition 200 5 100 false).errorMessage.isSome = true ∧
      (validateSeekPosition 200 5 100 false).targetPosition = none) :=
  ⟨(validate_seek_position_bounds 10 5 100 true).1 (by norm_num [validateSeekPosition]),
   (validate_seek_position_bounds 200 5 100 false).2 (by norm_num)⟩

/-! ## Claim C4 — timing model stays consistent across a seek -/

/-- C4: immediately after `_update_timing_after_seek(guild_id, t)` runs at
instant `now` (setting the start time to `now - t`, zeroing the paused
duration and clearing any pause mark), `get_current_playback_position`
evaluated at `now` returns `t`, and at any `later ≥ now` instant while
unpaused it returns `t` plus the elapsed time since the seek.  (`t` ranges
over target positions, which are non-negative: `_perform_seek` only passes
positions validated by `validate_seek_position`.) -/
theorem timing_consistent_after_seek (s : TimingState) (g : Int) (now t later : ℚ)
    (ht : 0 ≤ t) (hl : now ≤ later) :
    getCurrentPlaybackPosition (updateTimingAfterSeek s g now t) g now = some t ∧
    getCurrentPlaybackPosition (updateTimingAfterSeek s g now t) g later
      = some (t + (later - now)) := by
  have key : ∀ x : ℚ, getCurrentPlaybackPosition (updateTimingAfterSeek s g now t) g x
      = some (max 0 (x - (now - t))) := by
    intro x
    simp [getCurrentPlaybackPosition, updateTimingAfterSeek, setAt]
  rw [key now, key later]
  constructor
  · have harith : now - (now - t) = t := by ring
    rw [harith, max_eq_right ht]
  · have harith : later - (now - t) = t + (later - now) := by ring
    rw [harith, max_eq_right (by linarith)]

/-- Witness for C4: seeking guild 1 to 30 seconds at instant 100 makes the
reported position 30 at that instant and 35 five seconds later. -/
theorem timing_consistent_after_seek_witness :
    getCurrentPlaybackPosition
      (updateTimingAfterSeek ⟨fun _ => none, fun _ => none, fun _ => none⟩ 1 100 30)
      1 100 = some 30 ∧
    getCurrentPlaybackPosition
      (updateTimingAfterSeek ⟨fun _ => none, fun _ => none, fun _ => none⟩ 1 100 30)
      1 105 = some (30 + (105 - 100)) :=
  timing_consistent_after_seek ⟨fun _ => none, fun _ => none, fun _ => none⟩ 1 100 30 105
    (by norm_num) (by norm_num)

/-! ## Claim C1 — one playback task and one inactivity timer per guild -/

/-- C1: each guild has at most one playback task and at most one inactivity
timer.  The per-guild dicts are modelled as functions into `Option`, so
holding at most one entry per guild key is structural; operationally,
`_start_playback` on a guild that already has a playback task returns the
state unchanged (no new task is created), and `_reset_inactivity_timer` /
`_start_inactivity_timer` cancel any existing timer for the guild before
leaving it removed (respectively replaced by the single fresh timer). -/
theorem per_guild_task_and_timer_uniqueness (s : PlayerTasks) (g : Int) (now : ℚ) :
    ((s.playbackTasks g).isSome = true → startPlayback s g now = s) ∧
    (resetInactivityTimer s g now).inactivityTimers g = none ∧
    (∀ t, s.inactivityTimers g = some t →
      (resetInactivityTimer s g now).cancelledTasks t = true) ∧
    (startInactivityTimer s g).inactivityTimers g = some s.nextTaskId ∧
    (∀ t, s.inactivityTimers g = some t →
      (startInactivityTimer s g).cancelledTasks t = true) := by
  refine ⟨?_, ?_, ?_, ?_, ?_⟩
  · intro h
    unfold startPlayback
    simp [h]
  · unfold resetInactivityTimer
    cases h : s.inactivityTimers g <;> simp [h, setAt]
  · intro t ht
    unfold resetInactivityTimer
    simp [ht]
  · unfold startInactivityTimer
    cases h : s.inactivityTimers g <;> simp [h, setAt]
  · intro t ht
    unfold startInactivityTimer
    simp [ht, setAt]

/-- Witness for C1 at a concrete state: guild 5 already has playback task 7
and inactivity timer 9. -/
theorem per_guild_task_and_timer_uniqueness_witness :
    startPlayback ⟨fun _ => some 7, fun _ => some 9, fun _ => none, fun _ => false, 10⟩ 5 0
      = ⟨fun _ => some 7, fun _ => some 9, fun _ => none, fun _ => false, 10⟩ ∧
    (resetInactivityTimer ⟨fun _ => some 7, fun _ => some 9, fun _ => none, fun _ => false, 10⟩
      5 0).cancelledTasks 9 = true ∧
    (startInactivityTimer ⟨fun _ => some 7, fun _ => some 9, fun _ => none, fun _ => false, 10⟩
      5).inactivityTimers 5 = some 10 := by
  have h := per_guild_task_and_timer_uniqueness
    ⟨fun _ => some 7, fun _ => some 9, fun _ => none, fun _ => false, 10⟩ 5 0
  exact ⟨h.1 rfl, h.2.2.1 9 rfl, h.2.2.2.1⟩

/-! ## Claim C5 — at most one active audio file per guild -/

/-- C5: `_current_audio_files` maps each guild to at most one audio file
path (structural in the dict model); the playback loop's assignment
overwrites the guild's single entry when a new song starts, leaving the
entries of other guilds untouched, and `_cleanup_current_audio` removes the
entry, handing the path to file deletion only when it is not an http URL
(local files), so no operation leaves two active audio files recorded for
one guild. -/
theorem one_active_audio_file_per_guild (s : AudioFileState) (g : Int) (p : String) :
    (storeCurrentAudio s g p).currentAudioFiles g = some p ∧
    (∀ g', g' ≠ g → (storeCurrentAudio s g p).currentAudioFiles g' = s.currentAudioFiles g') ∧
    (cleanupCurrentAudio s g).currentAudioFiles g = none ∧
    (∀ q, q ∈ (cleanupCurrentAudio s g).removedFiles →
      q ∈ s.removedFiles ∨
        (s.currentAudioFiles g = some q ∧ q.startsWith "http" = false)) := by
  refine ⟨?_, ?_, ?_, ?_⟩
  · simp [storeCurrentAudio, setAt]
  · intro g' hg'
    simp [storeCurrentAudio, setAt, hg']
  · unfold cleanupCurrentAudio
    cases h : s.currentAudioFiles g <;> simp [h, setAt]
  · intro q hq
    unfold cleanupCurrentAudio at hq
    cases h : s.currentAudioFiles g with
    | none =>
      rw [h] at hq
      exact Or.inl hq
    | some path =>
      rw [h] at hq
      simp only at hq
      by_cases hcond : (!(path == "") && !path.startsWith "http") = true
      · rw [if_pos hcond] at hq
        rcases List.mem_cons.mp hq with heq | hmem
        · subst heq
          right
          refine ⟨rfl, ?_⟩
          have := (Bool.and_eq_true _ _).mp hcond
          simpa using this.2
        · exact Or.inl hmem
      · rw [if_neg hcond] at hq
        exact Or.inl hq

/-- Witness for C5 at a concrete state: guild 3 holds `/tmp/a.m4a`; storing
`b.m4a` overwrites it, leaving guild 4 untouched, and cleanup removes the
entry while only ever deleting non-http paths. -/
theorem one_active_audio_file_per_guild_witness :
    (storeCurrentAudio ⟨fun _ => some "/tmp/a.m4a", []⟩ 3 "b.m4a").currentAudioFiles 3
      = some "b.m4a" ∧
    (storeCurrentAudio ⟨fun _ => some "/tmp/a.m4a", []⟩ 3 "b.m4a").currentAudioFiles 4
      = some "/tmp/a.m4a" ∧
    (cleanupCurrentAudio ⟨fun _ => some "/tmp/a.m4a", []⟩ 3).currentAudioFiles 3 = none ∧
    ("/tmp/a.m4a" ∈ (cleanupCurrentAudio ⟨fun _ => some "/tmp/a.m4a", []⟩ 3).removedFiles →
      "/tmp/a.m4a".startsWith "http" = false) := by
  have h := one_active_audio_file_per_guild ⟨fun _ => some "/tmp/a.m4a", []⟩ 3 "b.m4a"
  refine ⟨h.1, h.2.1 4 (by decide), h.2.2.1, ?_⟩
  intro hq
  rcases h.2.2.2 "/tmp/a.m4a" hq with hmem | ⟨_, hns⟩
  · simp at hmem
  · exact hns

/-! ## Claim C2 — the retry policy (corrected: three attempts, and a
second retry site in the YouTube client) -/

/-- Every run of `_create_youtube_object` makes at least one attempt. -/
theorem createYouTubeObjectFrom_pos (construct : Nat → Except PyExn YTHandle)
    (hc af : Bool) (attempt fuel : Nat) :
    1 ≤ (createYouTubeObjectFrom construct hc af attempt fuel).2 := by
  unfold createYouTubeObjectFrom
  cases construct attempt with
  | ok yt => simp
  | error e =>
    simp only
    split
    · cases fuel <;> simp
    · simp

/-- Every run of `_create_youtube_object` makes at most `fuel + 1` attempts. -/
theorem createYouTubeObjectFrom_le (construct : Nat → Except PyExn YTHandle)
    (hc af : Bool) : ∀ (fuel attempt : Nat),
    (createYouTubeObjectFrom construct hc af attempt fuel).2 ≤ fuel + 1 := by
  intro fuel
  induction fuel with
  | zero =>
    intro attempt
    unfold createYouTubeObjectFrom
    cases construct attempt with
    | ok yt => simp
    | error e =>
      simp only
      split <;> simp
  | succ fuel ih =>
    intro attempt
    unfold createYouTubeObjectFrom
    cases construct attempt with
    | ok yt => simp
    | error e =>
      simp only
      split
      · have := ih (attempt + 1)
        simp only
        omega
      · simp

/-- Counterexample for C2 as stated, refuting both of its falsifiable
conjuncts.  First, with every attempt raising a client error,
`_make_head_request_with_retry` at its default `max_retries = 2` makes
THREE attempts in total (`for attempt in range(max_retries + 1)`), not two
as claimed.  Second, the HEAD probe is not the only retry in the system:
`_create_youtube_object` (`youtube_client.py` lines 280-292), on a first
attempt raising a bot-detection `PytubeFixError` with a config present and
auto-fallback enabled, re-attempts the failed YouTube request (two
attempts are made here). -/
theorem retry_policy_cex :
    (¬ (makeHeadRequestWithRetry (fun _ => none)).2.2 = 2 ∧
      (makeHeadRequestWithRetry (fun _ => none)).2.2 = 3) ∧
    (createYouTubeObject
      (fun n => if n = 0 then .error ⟨true, "detected as a bot"⟩
        else .ok ⟨none, none, none⟩) true true).2 = 2 := by
  refine ⟨⟨by decide, by decide⟩, by decide⟩

/-- C2 (amended): for any URL, `_make_head_request_with_retry` at its
default `max_retries = 2` (used by both call sites) makes at most three
attempts, returns `None` exactly when all three attempts raise a client
error (in which case exactly three attempts were made), and waits
`2^attempt` seconds after each failed attempt other than the last (the
sleeps performed are the corresponding prefix of `[2^0, 2^1]`).  The
system's one other retry site is `YouTubeClient._create_youtube_object`:
it makes at most three constructor attempts; a first attempt that succeeds
or that fails other than with a bot-detection `PytubeFixError` under a
present config with auto-fallback enabled is never retried; and a first
attempt that does so fail is re-attempted. -/
theorem head_retry_three_attempt_backoff (env : Nat → Option HeadResponse)
    (construct : Nat → Except PyExn YTHandle) (hasConfig autoFallback : Bool) :
    ((makeHeadRequestWithRetry env).1 = none ↔
      env 0 = none ∧ env 1 = none ∧ env 2 = none) ∧
    (makeHeadRequestWithRetry env).2.2 ≤ 3 ∧
    ((makeHeadRequestWithRetry env).1 = none → (makeHeadRequestWithRetry env).2.2 = 3) ∧
    (makeHeadRequestWithRetry env).2.1 =
      (List.range ((makeHeadRequestWithRetry env).2.2 - 1)).map (fun a => 2 ^ a) ∧
    (createYouTubeObject construct hasConfig autoFallback).2 ≤ 3 ∧
    (∀ yt, construct 0 = .ok yt →
      createYouTubeObject construct hasConfig autoFallback = (.ok yt, 1)) ∧
    (∀ e, construct 0 = .error e →
      (e.isPytubeFix && isBotDetectionError e.msg && hasConfig && autoFallback) = false →
      createYouTubeObject construct hasConfig autoFallback = (.error e, 1)) ∧
    (∀ e, construct 0 = .error e →
      (e.isPytubeFix && isBotDetectionError e.msg && hasConfig && autoFallback) = true →
      2 ≤ (createYouTubeObject construct hasConfig autoFallback).2) := by
  refine ⟨?_, ?_, ?_, ?_, ?_, ?_, ?_, ?_⟩
  · cases h0 : env 0 <;> cases h1 : env 1 <;> cases h2 : env 2 <;>
      simp [makeHeadRequestWithRetry, headRetryFrom, h0, h1, h2, List.range_succ]
  · cases h0 : env 0 <;> cases h1 : env 1 <;> cases h2 : env 2 <;>
      simp [makeHeadRequestWithRetry, headRetryFrom, h0, h1, h2, List.range_succ]
  · cases h0 : env 0 <;> cases h1 : env 1 <;> cases h2 : env 2 <;>
      simp [makeHeadRequestWithRetry, headRetryFrom, h0, h1, h2, List.range_succ]
  · cases h0 : env 0 <;> cases h1 : env 1 <;> cases h2 : env 2 <;>
      simp [makeHeadRequestWithRetry, headRetryFrom, h0, h1, h2, List.range_succ]
  · exact createYouTubeObjectFrom_le construct hasConfig autoFallback 2 0
  · intro yt h
    unfold createYouTubeObject createYouTubeObjectFrom
    rw [h]
  · intro e h hcond
    unfold createYouTubeObject createYouTubeObjectFrom
    rw [h]
    simp only
    rw [if_neg (by simp [hcond])]
  · intro e h hcond
    unfold createYouTubeObject createYouTubeObjectFrom
    rw [h]
    simp only
    rw [if_pos (by simp [hcond])]
    show 2 ≤ (createYouTubeObjectFrom construct hasConfig autoFallback 1 1).2 + 1
    have := createYouTubeObjectFrom_pos construct hasConfig autoFallback 1 1
    omega

/-- Witness for C2 (amended): the all-failing HEAD environment makes
exactly three attempts with result `None`; a YouTube constructor that
succeeds immediately is not retried, while one whose first attempt raises
a bot-detection `PytubeFixError` (config present, auto-fallback enabled)
is re-attempted. -/
theorem head_retry_three_attempt_backoff_witness :
    (makeHeadRequestWithRetry (fun _ => none)).2.2 = 3 ∧
    createYouTubeObject (fun _ => .ok ⟨none, none, none⟩) true true
      = (.ok ⟨none, none, none⟩, 1) ∧
    2 ≤ (createYouTubeObject
      (fun n => if n = 0 then .error ⟨true, "detected as a bot"⟩
        else .ok ⟨none, none, none⟩) true true).2 := by
  refine ⟨?_, ?_, ?_⟩
  · exact (head_retry_three_attempt_backoff (fun _ => none)
      (fun _ => .ok ⟨none, none, none⟩) true true).2.2.1 (by decide)
  · exact (head_retry_three_attempt_backoff (fun _ => none)
      (fun _ => .ok ⟨none, none, none⟩) true true).2.2.2.2.2.1 ⟨none, none, none⟩ rfl
  · exact (head_retry_three_attempt_backoff (fun _ => none)
      (fun n => if n = 0 then .error ⟨true, "detected as a bot"⟩
        else .ok ⟨none, none, none⟩) true true).2.2.2.2.2.2.2
      ⟨true, "detected as a bot"⟩ rfl (by decide)

/-! ## Claim C7 — auto-disconnect never fires during activity -/

/-- Helper: a successful `add_song_to_queue` run performed the
`_reset_inactivity_timer` call (it is in the trace). -/
theorem addSong_success_resets_timer (env : AddSongEnv) (url : String)
    (h : (addSongToQueue env url).1.1 = true) :
    MusicCall.resetTimer ∈ (addSongToQueue env url).2 := by
  rcases hd : detectAudioSourceType env.isYT env.isCB url with _ | st
  · simp [addSongToQueue, addSongBody, hd] at h
  · cases st
    case youtube =>
      rcases hex : env.extractYouTubeInfo url with e | o
      · simp [addSongToQueue, addSongBody, hd, hex] at h
      · rcases o with _ | info
        · simp [addSongToQueue, addSongBody, hd, hex] at h
        · rcases hq : env.queueAdd info with e | pos
          · simp [addSongToQueue, addSongBody, hd, hex, hq] at h
          · rcases hp : env.isPlaying with e | playing
            · simp [addSongToQueue, addSongBody, hd, hex, hq, hp] at h
            · cases playing
              case true => simp [addSongToQueue, addSongBody, hd, hex, hq, hp]
              case false =>
                rcases hb : env.beginPlayback with e | u
                · simp [addSongToQueue, addSongBody, hd, hex, hq, hp, hb] at h
                · simp [addSongToQueue, addSongBody, hd, hex, hq, hp, hb]
    case catbox =>
      rcases hex : env.extractCatboxInfo url with e | o
      · simp [addSongToQueue, addSongBody, hd, hex] at h
      · rcases o with _ | info
        · simp [addSongToQueue, addSongBody, hd, hex] at h
        · rcases hq : env.queueAdd info with e | pos
          · simp [addSongToQueue, addSongBody, hd, hex, hq] at h
          · rcases hp : env.isPlaying with e | playing
            · simp [addSongToQueue, addSongBody, hd, hex, hq, hp] at h
            · cases playing
              case true => simp [addSongToQueue, addSongBody, hd, hex, hq, hp]
              case false =>
                rcases hb : env.beginPlayback with e | u
                · simp [addSongToQueue, addSongBody, hd, hex, hq, hp, hb] at h
                · simp [addSongToQueue, addSongBody, hd, hex, hq, hp, hb]

/-- C7: the inactivity timer wakes only after the full timeout has elapsed
(`timerWakeTime t0 timeout - t0 = timeout`), disconnects only if at that
moment the bot is still connected and not playing (in particular it never
disconnects while a song is playing, and never after being cancelled), and
activity cancels the pending timer: `_reset_inactivity_timer` leaves no
timer for the guild, a successful `connect_to_user_channel` leaves no timer
for the guild, `_start_playback` on a guild without a playback task leaves
no timer for the guild, and a successful `add_song_to_queue` performs the
timer reset (it appears in its call trace). -/
theorem auto_disconnect_only_when_inactive (c : Bool) (v : VoiceSnapshot)
    (t0 timeout : ℚ) (s : PlayerTasks) (g : Int) (now : ℚ)
    (cenv : ConnectEnv) (aenv : AddSongEnv) (url : String) :
    (v.playing = true → inactivityTimerDisconnects c v = false) ∧
    (inactivityTimerDisconnects c v = true →
      c = false ∧ v.connected = true ∧ v.playing = false ∧
      timerWakeTime t0 timeout - t0 = timeout) ∧
    (resetInactivityTimer s g now).inactivityTimers g = none ∧
    ((connectToUserChannel cenv s g now).1.1 = true →
      (connectToUserChannel cenv s g now).2.inactivityTimers g = none) ∧
    ((s.playbackTasks g).isSome = false →
      (startPlayback s g now).inactivityTimers g = none) ∧
    ((addSongToQueue aenv url).1.1 = true →
      MusicCall.resetTimer ∈ (addSongToQueue aenv url).2) := by
  have hreset : ∀ s' : PlayerTasks, (resetInactivityTimer s' g now).inactivityTimers g = none := by
    intro s'
    unfold resetInactivityTimer
    cases h : s'.inactivityTimers g <;> simp [h, setAt]
  refine ⟨?_, ?_, hreset s, ?_, ?_, ?_⟩
  · intro hp
    simp [inactivityTimerDisconnects, hp]
  · intro hd
    unfold inactivityTimerDisconnects at hd
    cases c with
    | true => simp at hd
    | false =>
      simp at hd
      exact ⟨rfl, hd.1, hd.2, by unfold timerWakeTime; ring⟩
  · intro hc
    unfold connectToUserChannel at hc ⊢
    by_cases h1 : cenv.inVoice <;> by_cases h2 : cenv.isVoiceChannel <;>
      by_cases h3 : cenv.connectSucceeds <;> simp [h1, h2, h3] at hc ⊢
    exact hreset s
  · intro hnp
    unfold startPlayback
    rw [if_neg (by simp [hnp])]
    simp [hreset s]
  · exact addSong_success_resets_timer aenv url

/-- Witness for C7 at concrete inputs: an uncancelled timer waking while a
song plays does not disconnect; one waking while connected and idle does
(after the full timeout); a successful connect, a fresh `_start_playback`
and a successful `add_song_to_queue` all leave/perform the timer reset. -/
theorem auto_disconnect_only_when_inactive_witness :
    inactivityTimerDisconnects false ⟨true, true⟩ = false ∧
    (false = false ∧ (true = true ∧ (false = false ∧
      timerWakeTime 0 300 - 0 = 300))) ∧
    (connectToUserChannel ⟨true, true, true⟩
      ⟨fun _ => none, fun _ => some 4, fun _ => none, fun _ => false, 6⟩ 2 50).2.inactivityTimers 2
      = none ∧
    (startPlayback ⟨fun _ => none, fun _ => some 4, fun _ => none, fun _ => false, 6⟩ 2 50).inactivityTimers 2
      = none := by
  have h := auto_disconnect_only_when_inactive false ⟨true, true⟩ 0 300
    ⟨fun _ => none, fun _ => some 4, fun _ => none, fun _ => false, 6⟩ 2 50
    ⟨true, true, true⟩
    ⟨fun _ => true, fun _ => false, fun _ => .error "e", fun _ => .error "e",
      fun _ => .error "e", .error "e", .error "e"⟩ ""
  refine ⟨h.1 rfl, ?_, h.2.2.2.1 rfl, h.2.2.2.2.1 rfl⟩
  have h2 := auto_disconnect_only_when_inactive false ⟨true, false⟩ 0 300
    ⟨fun _ => none, fun _ => some 4, fun _ => none, fun _ => false, 6⟩ 2 50
    ⟨true, true, true⟩
    ⟨fun _ => true, fun _ => false, fun _ => .error "e", fun _ => .error "e",
      fun _ => .error "e", .error "e", .error "e"⟩ ""
  have h3 := h2.2.1 rfl
  exact ⟨h3.1, h3.2.1, rfl, h3.2.2.2⟩

/-! ## Claim C10 — `_sanitize_filename` always produces a safe filename -/

/-- Characters surviving `pyStrip` come from the original list. -/
theorem mem_pyStrip {c : Char} {l : List Char} (h : c ∈ pyStrip l) : c ∈ l := by
  unfold pyStrip at h
  have h1 := List.mem_reverse.mp h
  have h2 := (List.dropWhile_sublist _).mem h1
  have h3 := List.mem_reverse.mp h2
  exact (List.dropWhile_sublist _).mem h3

/-- Counterexample for C10 as stated: the claim's "equals `\"audio\"`
exactly when the replaced-and-stripped input is empty" fails on the input
`"audio"` itself, whose sanitised form is `"audio"` although its
replaced-and-stripped form is non-empty. -/
theorem sanitize_filename_iff_cex :
    ¬ ((sanitizeFilename "audio" = "audio") ↔ pyStrip (replaceInvalidChars "audio") = []) := by
  decide

/-- C10 (amended): for every input string the result of `_sanitize_filename`
is non-empty, has length at most 100, contains none of the characters
`< > : " / \ | ? *`, and equals `"audio"` whenever the input, after
replacing those characters with underscores and stripping whitespace, is
empty (the converse fails: inputs whose sanitised form is literally
`"audio"` also return `"audio"`). -/
theorem sanitize_filename_safe (s : String) :
    sanitizeFilename s ≠ "" ∧
    (sanitizeFilename s).length ≤ 100 ∧
    (∀ c ∈ (sanitizeFilename s).data, c ∉ invalidFilenameChars) ∧
    (pyStrip (replaceInvalidChars s) = [] → sanitizeFilename s = "audio") := by
  unfold sanitizeFilename
  by_cases he : ((pyStrip (replaceInvalidChars s)).take 100).isEmpty = true
  · rw [if_pos he]
    refine ⟨by decide, by decide, by decide, fun _ => rfl⟩
  · rw [if_neg he]
    refine ⟨?_, ?_, ?_, ?_⟩
    · intro hcontra
      have : (pyStrip (replaceInvalidChars s)).take 100 = [] := congrArg String.data hcontra
      rw [List.isEmpty_iff] at he
      exact he this
    · have : (String.mk ((pyStrip (replaceInvalidChars s)).take 100)).length
          = ((pyStrip (replaceInvalidChars s)).take 100).length := rfl
      rw [this, List.length_take]
      exact min_le_left _ _
    · intro c hc
      have hmem : c ∈ (pyStrip (replaceInvalidChars s)).take 100 := hc
      have hmem2 : c ∈ pyStrip (replaceInvalidChars s) := (List.take_sublist _ _).mem hmem
      have hmem3 : c ∈ replaceInvalidChars s := mem_pyStrip hmem2
      unfold replaceInvalidChars at hmem3
      rcases List.mem_map.mp hmem3 with ⟨a, _, ha⟩
      by_cases hinv : invalidFilenameChars.contains a = true
      · rw [if_pos hinv] at ha
        rw [← ha]
        decide
      · rw [if_neg hinv] at ha
        rw [← ha]
        intro hmem4
        exact hinv (List.elem_eq_true_of_mem hmem4)
    · intro hl
      rw [List.isEmpty_iff] at he
      exact absurd (by rw [hl]; rfl) he

/-- Witness for C10 (amended) at the whitespace-only input `"   "`, whose
replaced-and-stripped form is empty: the result is `"audio"`, and e.g. the
character `a` of the result is not an invalid filename character. -/
theorem sanitize_filename_safe_witness :
    sanitizeFilename "   " ≠ "" ∧
    (sanitizeFilename "   ").length ≤ 100 ∧
    'a' ∉ invalidFilenameChars ∧
    sanitizeFilename "   " = "audio" := by
  have h := sanitize_filename_safe "   "
  exact ⟨h.1, h.2.1, h.2.2.1 'a' (by decide), h.2.2.2 (by decide)⟩

/-! ## Claim C6 — only YouTube and Catbox URLs can be queued -/

/-- C6: for every URL on which both `is_youtube_url` and `is_catbox_url` are
false, `detect_audio_source_type` returns `None` and `add_song_to_queue`
returns `(False, None, message)` with the unsupported-format message while
performing no external call at all (empty trace — in particular the guild's
queue is not modified); for every URL on which one of them is true,
`add_song_to_queue` proceeds past the source-type check: its first external
call is the matching audio-info extraction. -/
theorem only_supported_sources_queued (env : AddSongEnv) (url : String) :
    (env.isYT url = false → env.isCB url = false →
      detectAudioSourceType env.isYT env.isCB url = none ∧
      addSongToQueue env url =
        ((false, none,
          some "Unsupported URL format. Please provide a YouTube or Catbox audio file URL."),
         [])) ∧
    (env.isYT url = true ∨ env.isCB url = true →
      (detectAudioSourceType env.isYT env.isCB url).isSome = true ∧
      (addSongToQueue env url).2.head? =
        some (if env.isYT url then MusicCall.extractYouTubeInfo url
          else MusicCall.extractCatboxInfo url)) := by
  constructor
  · intro h1 h2
    have hd : detectAudioSourceType env.isYT env.isCB url = none := by
      simp [detectAudioSourceType, h1, h2]
    exact ⟨hd, by simp [addSongToQueue, addSongBody, hd]⟩
  · intro hor
    by_cases h1 : env.isYT url = true
    · have hd : detectAudioSourceType env.isYT env.isCB url = some .youtube := by
        simp [detectAudioSourceType, h1]
      refine ⟨by simp [hd], ?_⟩
      rw [if_pos h1]
      rcases hex : env.extractYouTubeInfo url with e | o
      · simp [addSongToQueue, addSongBody, hd, hex]
      · rcases o with _ | info
        · simp [addSongToQueue, addSongBody, hd, hex]
        · rcases hq : env.queueAdd info with e | pos
          · simp [addSongToQueue, addSongBody, hd, hex, hq]
          · rcases hp : env.isPlaying with e | playing
            · simp [addSongToQueue, addSongBody, hd, hex, hq, hp]
            · cases playing
              · rcases hb : env.beginPlayback with e | u <;>
                  simp [addSongToQueue, addSongBody, hd, hex, hq, hp, hb]
              · simp [addSongToQueue, addSongBody, hd, hex, hq, hp]
    · have h1f : env.isYT url = false := by
        cases hx : env.isYT url
        · rfl
        · exact absurd hx h1
      have h2 : env.isCB url = true := by
        rcases hor with h | h
        · exact absurd h h1
        · exact h
      have hd : detectAudioSourceType env.isYT env.isCB url = some .catbox := by
        simp [detectAudioSourceType, h1f, h2]
      refine ⟨by simp [hd], ?_⟩
      rw [if_neg (by simp [h1f])]
      rcases hex : env.extractCatboxInfo url with e | o
      · simp [addSongToQueue, addSongBody, hd, hex]
      · rcases o with _ | info
        · simp [addSongToQueue, addSongBody, hd, hex]
        · rcases hq : env.queueAdd info with e | pos
          · simp [addSongToQueue, addSongBody, hd, hex, hq]
          · rcases hp : env.isPlaying with e | playing
            · simp [addSongToQueue, addSongBody, hd, hex, hq, hp]
            · cases playing
              · rcases hb : env.beginPlayback with e | u <;>
                  simp [addSongToQueue, addSongBody, hd, hex, hq, hp, hb]
              · simp [addSongToQueue, addSongBody, hd, hex, hq, hp]

/-- Witness for C6 at concrete environments: with both predicates false the
queueing rejects with the unsupported-format message and an empty trace;
with the YouTube predicate true the first external call is the YouTube
info extraction. -/
theorem only_supported_sources_queued_witness :
    (addSongToQueue
      ⟨fun _ => false, fun _ => false, fun _ => .error "e", fun _ => .error "e",
        fun _ => .error "e", .error "e", .error "e"⟩ "u" =
      ((false, none,
        some "Unsupported URL format. Please provide a YouTube or Catbox audio file URL."),
       [])) ∧
    (addSongToQueue
      ⟨fun _ => true, fun _ => false, fun _ => .error "e", fun _ => .error "e",
        fun _ => .error "e", .error "e", .error "e"⟩ "u").2.head? =
      some (MusicCall.extractYouTubeInfo "u") := by
  constructor
  · exact ((only_supported_sources_queued
      ⟨fun _ => false, fun _ => false, fun _ => .error "e", fun _ => .error "e",
        fun _ => .error "e", .error "e", .error "e"⟩ "u").1 rfl rfl).2
  · have h := ((only_supported_sources_queued
      ⟨fun _ => true, fun _ => false, fun _ => .error "e", fun _ => .error "e",
        fun _ => .error "e", .error "e", .error "e"⟩ "u").2 (Or.inl rfl)).2
    simpa using h

/-! ## Claim C3 — errors surface as success flags plus messages -/

/-- C3: every public operation catches exceptions internally and reports
failure as a returned success flag plus a human-readable message, never by
propagating the exception.  Propagation-freedom is structural: each wrapper
returns a plain tuple for every environment, including environments in
which any internal step raises.  Proved here: whenever the operation's
`try` body raises (`.isOk = false`), `add_song_to_queue`,
`skip_current_song`, `stop_playback`, `jump_to_position` and
`seek_to_position` return success `False` with a non-`None` message, and
`validate_audio_file` and `download_audio` return `(False, None, message)`. -/
theorem errors_surfaced_as_flags (aenv : AddSongEnv) (url1 : String)
    (senv : SkipEnv) (stenv : StopEnv) (jenv : JumpEnv) (pos : Int)
    (seenv : SeekEnv) (ts : String) (venv : ValidateEnv) (url2 : String)
    (denv : DownloadEnv) (url3 : String) :
    ((addSongBody aenv url1).1.isOk = false →
      (addSongToQueue aenv url1).1.1 = false ∧
      (addSongToQueue aenv url1).1.2.1 = none ∧
      (addSongToQueue aenv url1).1.2.2.isSome = true) ∧
    ((skipCurrentSongBody senv).isOk = false →
      (skipCurrentSong senv).1 = false ∧ (skipCurrentSong senv).2.2.isSome = true) ∧
    ((stopPlaybackBody stenv).isOk = false →
      (stopPlayback stenv).1 = false ∧ (stopPlayback stenv).2.isSome = true) ∧
    ((jumpToPositionBody jenv pos).isOk = false →
      (jumpToPosition jenv pos).1 = false ∧ (jumpToPosition jenv pos).2.2.isSome = true) ∧
    ((seekToPositionBody seenv ts).isOk = false →
      (seekToPosition seenv ts).1 = false ∧ (seekToPosition seenv ts).2.isSome = true) ∧
    ((validateAudioFileBody venv url2).isOk = false →
      (validateAudioFile venv url2).1 = false ∧
      (validateAudioFile venv url2).2.1 = none ∧
      (validateAudioFile venv url2).2.2.isSome = true) ∧
    ((downloadAudioBody denv url3).isOk = false →
      (downloadAudio denv url3).1 = false ∧
      (downloadAudio denv url3).2.1 = none ∧
      (downloadAudio denv url3).2.2.isSome = true) := by
  refine ⟨?_, ?_, ?_, ?_, ?_, ?_, ?_⟩
  · intro h
    rcases hb : addSongBody aenv url1 with ⟨e | r, tr⟩
    · simp [addSongToQueue, hb]
    · rw [hb] at h
      simp [Except.isOk, Except.toBool] at h
  · intro h
    rcases hb : skipCurrentSongBody senv with e | r
    · simp [skipCurrentSong, hb]
    · rw [hb] at h
      simp [Except.isOk, Except.toBool] at h
  · intro h
    rcases hb : stopPlaybackBody stenv with e | r
    · simp [stopPlayback, hb]
    · rw [hb] at h
      simp [Except.isOk, Except.toBool] at h
  · intro h
    rcases hb : jumpToPositionBody jenv pos with e | r
    · simp [jumpToPosition, hb]
    · rw [hb] at h
      simp [Except.isOk, Except.toBool] at h
  · intro h
    rcases hb : seekToPositionBody seenv ts with e | r
    · simp [seekToPosition, hb]
    · rw [hb] at h
      simp [Except.isOk, Except.toBool] at h
  · intro h
    rcases hb : validateAudioFileBody venv url2 with e | r
    · unfold validateAudioFile
      rw [hb]
      by_cases hc : venv.isCB url2 = true <;> simp [hc]
    · rw [hb] at h
      simp [Except.isOk, Except.toBool] at h
  · intro h
    rcases hb : downloadAudioBody denv url3 with e | r
    · unfold downloadAudio
      rw [hb]
      by_cases hc : denv.isYT url3 = true <;>
        by_cases hp : e.isPytubeFix = true <;>
          by_cases hbd : isBotDetectionError e.msg = true <;> simp [hc, hp, hbd]
    · rw [hb] at h
      simp [Except.isOk, Except.toBool] at h

/-- Witness for C3: environments in which the first internal step of each
operation raises; every operation reports success `False` with a message. -/
theorem errors_surfaced_as_flags_witness :
    ((addSongToQueue
        ⟨fun _ => true, fun _ => false, fun _ => .error "boom", fun _ => .error "boom",
          fun _ => .error "boom", .error "boom", .error "boom"⟩ "u").1.1 = false ∧
      (addSongToQueue
        ⟨fun _ => true, fun _ => false, fun _ => .error "boom", fun _ => .error "boom",
          fun _ => .error "boom", .error "boom", .error "boom"⟩ "u").1.2.1 = none ∧
      (addSongToQueue
        ⟨fun _ => true, fun _ => false, fun _ => .error "boom", fun _ => .error "boom",
          fun _ => .error "boom", .error "boom", .error "boom"⟩ "u").1.2.2.isSome = true) ∧
    ((skipCurrentSong ⟨.error "boom", .error "boom", .error "boom"⟩).1 = false ∧
      (skipCurrentSong ⟨.error "boom", .error "boom", .error "boom"⟩).2.2.isSome = true) ∧
    ((stopPlayback ⟨.error "boom", .error "boom", .error "boom", .error "boom"⟩).1 = false ∧
      (stopPlayback ⟨.error "boom", .error "boom", .error "boom", .error "boom"⟩).2.isSome
        = true) ∧
    ((jumpToPosition ⟨.error "boom", .error "boom", fun _ => .error "boom"⟩ 1).1 = false ∧
      (jumpToPosition ⟨.error "boom", .error "boom", fun _ => .error "boom"⟩ 1).2.2.isSome
        = true) ∧
    ((seekToPosition ⟨.error "boom", .error "boom", none, fun _ => .error "boom"⟩ "1:30").1
        = false ∧
      (seekToPosition ⟨.error "boom", .error "boom", none, fun _ => .error "boom"⟩
        "1:30").2.isSome = true) ∧
    ((validateAudioFile ⟨fun _ => true, fun _ => .error "boom", fun _ => .error "boom"⟩
        "u").1 = false ∧
      (validateAudioFile ⟨fun _ => true, fun _ => .error "boom", fun _ => .error "boom"⟩
        "u").2.1 = none ∧
      (validateAudioFile ⟨fun _ => true, fun _ => .error "boom", fun _ => .error "boom"⟩
        "u").2.2.isSome = true) ∧
    ((downloadAudio ⟨fun _ => true, .error ⟨false, "boom"⟩, fun _ => .error ⟨false, "boom"⟩,
        fun _ => .error ⟨false, "boom"⟩, fun _ _ => .error ⟨false, "boom"⟩⟩ "u").1 = false ∧
      (downloadAudio ⟨fun _ => true, .error ⟨false, "boom"⟩, fun _ => .error ⟨false, "boom"⟩,
        fun _ => .error ⟨false, "boom"⟩, fun _ _ => .error ⟨false, "boom"⟩⟩ "u").2.1 = none ∧
      (downloadAudio ⟨fun _ => true, .error ⟨false, "boom"⟩, fun _ => .error ⟨false, "boom"⟩,
        fun _ => .error ⟨false, "boom"⟩, fun _ _ => .error ⟨false, "boom"⟩⟩ "u").2.2.isSome
        = true) := by
  have h := errors_surfaced_as_flags
    ⟨fun _ => true, fun _ => false, fun _ => .error "boom", fun _ => .error "boom",
      fun _ => .error "boom", .error "boom", .error "boom"⟩ "u"
    ⟨.error "boom", .error "boom", .error "boom"⟩
    ⟨.error "boom", .error "boom", .error "boom", .error "boom"⟩
    ⟨.error "boom", .error "boom", fun _ => .error "boom"⟩ 1
    ⟨.error "boom", .error "boom", none, fun _ => .error "boom"⟩ "1:30"
    ⟨fun _ => true, fun _ => .error "boom", fun _ => .error "boom"⟩ "u"
    ⟨fun _ => true, .error ⟨false, "boom"⟩, fun _ => .error ⟨false, "boom"⟩,
      fun _ => .error ⟨false, "boom"⟩, fun _ _ => .error ⟨false, "boom"⟩⟩ "u"
  exact ⟨h.1 rfl, h.2.1 rfl, h.2.2.1 rfl, h.2.2.2.1 rfl, h.2.2.2.2.1 rfl,
    h.2.2.2.2.2.1 rfl, h.2.2.2.2.2.2 rfl⟩

/-! ## Claim C8 — seek-time formatting/parsing round-trip -/

theorem pad2_data_eq : ∀ n < 100, (pad2 n).data = [dchar (n / 10), dchar (n % 10)] := by
  decide

theorem dchar_not_ws : ∀ d < 10, (dchar d).isWhitespace = false := by
  decide

theorem dchar_ne_colon : ∀ d < 10, dchar d ≠ ':' := by
  decide

theorem dchar_ne_plus : ∀ d < 10, dchar d ≠ '+' := by
  decide

theorem dchar_ne_minus : ∀ d < 10, dchar d ≠ '-' := by
  decide

theorem digitsToNat_pair : ∀ a < 10, ∀ b < 10, digitsToNat [dchar a, dchar b] = 10 * a + b := by
  decide

theorem grpUpTo2_pair : ∀ a < 10, ∀ b < 10, grpUpTo2 [dchar a, dchar b] = true := by
  decide

theorem grpExact2_pair : ∀ a < 10, ∀ b < 10, grpExact2 [dchar a, dchar b] = true := by
  decide

theorem splitColon_no_colon : ∀ l : List Char, (∀ c ∈ l, c ≠ ':') → splitColon l = [l] := by
  intro l
  induction l with
  | nil => intro _; rfl
  | cons c rest ih =>
    intro h
    have hc : ¬ c = ':' := h c (by simp)
    simp only [splitColon, if_neg hc]
    rw [ih (fun x hx => h x (by simp [hx]))]

theorem splitColon_append (xs : List Char) : ∀ ys : List Char, (∀ c ∈ xs, c ≠ ':') →
    splitColon (xs ++ ':' :: ys) = xs :: splitColon ys := by
  induction xs with
  | nil =>
    intro ys _
    simp [splitColon]
  | cons c rest ih =>
    intro ys h
    have hc : ¬ c = ':' := h c (by simp)
    simp only [List.cons_append, splitColon, if_neg hc, List.append_eq]
    rw [ih ys (fun x hx => h x (by simp [hx]))]

theorem dropWhile_eq_self_of_none (p : Char → Bool) (l : List Char)
    (h : ∀ c ∈ l, p c = false) : l.dropWhile p = l := by
  cases l with
  | nil => rfl
  | cons c rest =>
    rw [List.dropWhile_cons]
    simp [h c (by simp)]

theorem pyStrip_eq_self (l : List Char) (h : ∀ c ∈ l, c.isWhitespace = false) :
    pyStrip l = l := by
  unfold pyStrip
  rw [dropWhile_eq_self_of_none _ l h]
  rw [dropWhile_eq_self_of_none _ l.reverse (fun c hc => h c (List.mem_reverse.mp hc))]
  exact List.reverse_reverse l

theorem floor_natCast_div (s k : Nat) : ⌊((s:ℚ)) / ((k:ℕ):ℚ)⌋ = ((s / k : Nat) : Int) := by
  have h2 : (0:ℚ) ≤ (s:ℚ) / (k:ℚ) := by positivity
  rw [← Int.natCast_floor_eq_floor h2, Nat.floor_div_eq_div]

theorem qmod_natCast (s k : Nat) : qmod (s:ℚ) ((k:ℕ):ℚ) = ((s % k : Nat) : ℚ) := by
  unfold qmod
  rw [floor_natCast_div]
  have hmod : (k:ℚ) * ((s / k : Nat):ℚ) + ((s % k : Nat):ℚ) = (s:ℚ) := by
    exact_mod_cast congrArg (Nat.cast : Nat → ℚ) (Nat.div_add_mod s k)
  rw [Int.cast_natCast]
  linarith [hmod]

theorem formatTime_natCast (s : Nat) :
    formatTime (s:ℚ) = (if 0 < s / 3600 then
        pad2 (s / 3600) ++ ":" ++ pad2 (s % 3600 / 60) ++ ":" ++ pad2 (s % 60)
      else pad2 (s % 3600 / 60) ++ ":" ++ pad2 (s % 60)) := by
  unfold formatTime
  rw [if_neg (not_lt.mpr (by positivity))]
  unfold formatTimeCore
  have h3600 : ((3600:ℚ)) = (((3600:ℕ)):ℚ) := by norm_num
  have h60 : ((60:ℚ)) = (((60:ℕ)):ℚ) := by norm_num
  rw [h3600, h60, floor_natCast_div s 3600, qmod_natCast s 3600, qmod_natCast s 60,
    floor_natCast_div (s % 3600) 60, Int.floor_natCast, Int.toNat_natCast,
    Int.toNat_natCast, Int.toNat_natCast]


theorem parseSeekTime_ms (m sec : Nat) (hm : m < 60) (hs : sec < 60) :
    parseSeekTime (pad2 m ++ ":" ++ pad2 sec)
      = ⟨true, some ((m * 60 + sec : Nat) : ℚ), none⟩ := by
  have hdata : (pad2 m ++ ":" ++ pad2 sec).data
      = [dchar (m/10), dchar (m%10), ':', dchar (sec/10), dchar (sec%10)] := by
    rw [String.data_append, String.data_append, pad2_data_eq m (by omega),
      pad2_data_eq sec (by omega)]
    rfl
  have hnws : ∀ c ∈ (pad2 m ++ ":" ++ pad2 sec).data, c.isWhitespace = false := by
    rw [hdata]
    intro c hc
    simp only [List.mem_cons, List.not_mem_nil, or_false] at hc
    rcases hc with rfl | rfl | rfl | rfl | rfl
    · exact dchar_not_ws _ (by omega)
    · exact dchar_not_ws _ (by omega)
    · decide
    · exact dchar_not_ws _ (by omega)
    · exact dchar_not_ws _ (by omega)
  have hstrip : pyStrip (pad2 m ++ ":" ++ pad2 sec).data
      = [dchar (m/10), dchar (m%10), ':', dchar (sec/10), dchar (sec%10)] := by
    rw [pyStrip_eq_self _ hnws]
    exact hdata
  have hrel : matchRelativeTime
      [dchar (m/10), dchar (m%10), ':', dchar (sec/10), dchar (sec%10)] = none := by
    have h1 := dchar_ne_plus (m/10) (by omega)
    have h2 := dchar_ne_minus (m/10) (by omega)
    simp [matchRelativeTime, h1, h2]
  have hnc1 : ∀ c ∈ [dchar (m/10), dchar (m%10)], c ≠ ':' := by
    intro c hc
    simp only [List.mem_cons, List.not_mem_nil, or_false] at hc
    rcases hc with rfl | rfl
    · exact dchar_ne_colon _ (by omega)
    · exact dchar_ne_colon _ (by omega)
  have hnc2 : ∀ c ∈ [dchar (sec/10), dchar (sec%10)], c ≠ ':' := by
    intro c hc
    simp only [List.mem_cons, List.not_mem_nil, or_false] at hc
    rcases hc with rfl | rfl
    · exact dchar_ne_colon _ (by omega)
    · exact dchar_ne_colon _ (by omega)
  have hsplit : splitColon [dchar (m/10), dchar (m%10), ':', dchar (sec/10), dchar (sec%10)]
      = [[dchar (m/10), dchar (m%10)], [dchar (sec/10), dchar (sec%10)]] := by
    have h1 := splitColon_append [dchar (m/10), dchar (m%10)]
      [dchar (sec/10), dchar (sec%10)] hnc1
    have h2 := splitColon_no_colon [dchar (sec/10), dchar (sec%10)] hnc2
    rw [List.cons_append, List.cons_append, List.nil_append] at h1
    rw [h1, h2]
  have habs : matchAbsoluteTime
      [dchar (m/10), dchar (m%10), ':', dchar (sec/10), dchar (sec%10)]
      = some (none, [dchar (m/10), dchar (m%10)], [dchar (sec/10), dchar (sec%10)]) := by
    unfold matchAbsoluteTime
    rw [hsplit]
    simp [grpUpTo2_pair (m/10) (by omega) (m%10) (by omega),
      grpExact2_pair (sec/10) (by omega) (sec%10) (by omega)]
  have hcomp : parseTimeComponents none none [dchar (m/10), dchar (m%10)]
      [dchar (sec/10), dchar (sec%10)] false
      = ⟨true, some ((m * 60 + sec : Nat) : ℚ), none⟩ := by
    simp only [parseTimeComponents]
    rw [digitsToNat_pair (m/10) (by omega) (m%10) (by omega),
      digitsToNat_pair (sec/10) (by omega) (sec%10) (by omega)]
    have hmv : 10 * (m/10) + m % 10 = m := by omega
    have hsv : 10 * (sec/10) + sec % 10 = sec := by omega
    rw [hmv, hsv]
    rw [if_neg (by omega), if_neg (by omega)]
    simp only [Bool.false_and, SeekResult.mk.injEq, Option.some.injEq]
    refine ⟨trivial, ?_, trivial⟩
    push_cast
    ring
  unfold parseSeekTime
  simp only [hstrip, hrel, habs]
  rw [if_neg (by simp)]
  exact hcomp

theorem parseSeekTime_hms (h m sec : Nat) (hh : h < 100) (hm : m < 60) (hs : sec < 60) :
    parseSeekTime (pad2 h ++ ":" ++ pad2 m ++ ":" ++ pad2 sec)
      = ⟨true, some ((h * 3600 + m * 60 + sec : Nat) : ℚ), none⟩ := by
  have hdata : (pad2 h ++ ":" ++ pad2 m ++ ":" ++ pad2 sec).data
      = [dchar (h/10), dchar (h%10), ':', dchar (m/10), dchar (m%10), ':',
         dchar (sec/10), dchar (sec%10)] := by
    rw [String.data_append, String.data_append, String.data_append, String.data_append,
      pad2_data_eq h (by omega), pad2_data_eq m (by omega), pad2_data_eq sec (by omega)]
    rfl
  have hnws : ∀ c ∈ (pad2 h ++ ":" ++ pad2 m ++ ":" ++ pad2 sec).data,
      c.isWhitespace = false := by
    rw [hdata]
    intro c hc
    simp only [List.mem_cons, List.not_mem_nil, or_false] at hc
    rcases hc with rfl | rfl | rfl | rfl | rfl | rfl | rfl | rfl
    · exact dchar_not_ws _ (by omega)
    · exact dchar_not_ws _ (by omega)
    · decide
    · exact dchar_not_ws _ (by omega)
    · exact dchar_not_ws _ (by omega)
    · decide
    · exact dchar_not_ws _ (by omega)
    · exact dchar_not_ws _ (by omega)
  have hstrip : pyStrip (pad2 h ++ ":" ++ pad2 m ++ ":" ++ pad2 sec).data
      = [dchar (h/10), dchar (h%10), ':', dchar (m/10), dchar (m%10), ':',
         dchar (sec/10), dchar (sec%10)] := by
    rw [pyStrip_eq_self _ hnws]
    exact hdata
  have hrel : matchRelativeTime
      [dchar (h/10), dchar (h%10), ':', dchar (m/10), dchar (m%10), ':',
       dchar (sec/10), dchar (sec%10)] = none := by
    have h1 := dchar_ne_plus (h/10) (by omega)
    have h2 := dchar_ne_minus (h/10) (by omega)
    simp [matchRelativeTime, h1, h2]
  have hnch : ∀ c ∈ [dchar (h/10), dchar (h%10)], c ≠ ':' := by
    intro c hc
    simp only [List.mem_cons, List.not_mem_nil, or_false] at hc
    rcases hc with rfl | rfl
    · exact dchar_ne_colon _ (by omega)
    · exact dchar_ne_colon _ (by omega)
  have hncm : ∀ c ∈ [dchar (m/10), dchar (m%10)], c ≠ ':' := by
    intro c hc
    simp only [List.mem_cons, List.not_mem_nil, or_false] at hc
    rcases hc with rfl | rfl
    · exact dchar_ne_colon _ (by omega)
    · exact dchar_ne_colon _ (by omega)
  have hncs : ∀ c ∈ [dchar (sec/10), dchar (sec%10)], c ≠ ':' := by
    intro c hc
    simp only [List.mem_cons, List.not_mem_nil, or_false] at hc
    rcases hc with rfl | rfl
    · exact dchar_ne_colon _ (by omega)
    · exact dchar_ne_colon _ (by omega)
  have hsplit : splitColon [dchar (h/10), dchar (h%10), ':', dchar (m/10), dchar (m%10), ':',
      dchar (sec/10), dchar (sec%10)]
      = [[dchar (h/10), dchar (h%10)], [dchar (m/10), dchar (m%10)],
         [dchar (sec/10), dchar (sec%10)]] := by
    have h1 := splitColon_append [dchar (h/10), dchar (h%10)]
      [dchar (m/10), dchar (m%10), ':', dchar (sec/10), dchar (sec%10)] hnch
    have h2 := splitColon_append [dchar (m/10), dchar (m%10)]
      [dchar (sec/10), dchar (sec%10)] hncm
    have h3 := splitColon_no_colon [dchar (sec/10), dchar (sec%10)] hncs
    rw [List.cons_append, List.cons_append, List.nil_append] at h1 h2
    rw [h1, h2, h3]
  have habs : matchAbsoluteTime [dchar (h/10), dchar (h%10), ':', dchar (m/10),
      dchar (m%10), ':', dchar (sec/10), dchar (sec%10)]
      = some (some [dchar (h/10), dchar (h%10)], [dchar (m/10), dchar (m%10)],
          [dchar (sec/10), dchar (sec%10)]) := by
    unfold matchAbsoluteTime
    rw [hsplit]
    simp [grpUpTo2_pair (h/10) (by omega) (h%10) (by omega),
      grpUpTo2_pair (m/10) (by omega) (m%10) (by omega),
      grpExact2_pair (sec/10) (by omega) (sec%10) (by omega)]
  have hcomp : parseTimeComponents none (some [dchar (h/10), dchar (h%10)])
      [dchar (m/10), dchar (m%10)] [dchar (sec/10), dchar (sec%10)] false
      = ⟨true, some ((h * 3600 + m * 60 + sec : Nat) : ℚ), none⟩ := by
    simp only [parseTimeComponents]
    rw [digitsToNat_pair (h/10) (by omega) (h%10) (by omega),
      digitsToNat_pair (m/10) (by omega) (m%10) (by omega),
      digitsToNat_pair (sec/10) (by omega) (sec%10) (by omega)]
    have hhv : 10 * (h/10) + h % 10 = h := by omega
    have hmv : 10 * (m/10) + m % 10 = m := by omega
    have hsv : 10 * (sec/10) + sec % 10 = sec := by omega
    rw [hhv, hmv, hsv]
    rw [if_neg (by omega), if_neg (by omega)]
    simp only [Bool.false_and, SeekResult.mk.injEq, Option.some.injEq]
    refine ⟨trivial, ?_, trivial⟩
    push_cast
    ring
  unfold parseSeekTime
  simp only [hstrip, hrel, habs]
  rw [if_neg (by simp)]
  exact hcomp


theorem parseTimeComponents_shape (sign : Option Char) (hours : Option (List Char))
    (minutes seconds : List Char) (rel : Bool) :
    ((parseTimeComponents sign hours minutes seconds rel).success = true →
      (parseTimeComponents sign hours minutes seconds rel).targetPosition.isSome = true) ∧
    ((parseTimeComponents sign hours minutes seconds rel).success = false →
      (parseTimeComponents sign hours minutes seconds rel).errorMessage.isSome = true) := by
  unfold parseTimeComponents
  by_cases h1 : 60 ≤ digitsToNat minutes
  · simp [h1]
  · by_cases h2 : 60 ≤ digitsToNat seconds
    · simp [h1, h2]
    · simp [h1, h2]

/-- C8: for every non-negative integer number of seconds `s` below 100
hours (360000), `parse_seek_time (format_time s)` returns a `SeekResult`
with `success = True` and target position `float(s)`; and for every input
string, `parse_seek_time` returns `success = True` with a target position
or `success = False` with an error message (and, being a total function of
its input in this embedding, never raises). -/
theorem seek_format_parse_roundtrip :
    (∀ s : Nat, s < 360000 →
      parseSeekTime (formatTime ((s:ℕ):ℚ)) = ⟨true, some ((s:ℕ):ℚ), none⟩) ∧
    (∀ str : String,
      ((parseSeekTime str).success = true →
        (parseSeekTime str).targetPosition.isSome = true) ∧
      ((parseSeekTime str).success = false →
        (parseSeekTime str).errorMessage.isSome = true)) := by
  constructor
  · intro s hs
    rw [formatTime_natCast s]
    by_cases hh : 0 < s / 3600
    · rw [if_pos hh]
      rw [parseSeekTime_hms (s/3600) (s%3600/60) (s%60) (by omega) (by omega) (by omega)]
      have hval : s / 3600 * 3600 + s % 3600 / 60 * 60 + s % 60 = s := by omega
      rw [hval]
    · rw [if_neg hh]
      rw [parseSeekTime_ms (s%3600/60) (s%60) (by omega) (by omega)]
      have hval : s % 3600 / 60 * 60 + s % 60 = s := by omega
      rw [hval]
  · intro str
    unfold parseSeekTime
    by_cases he : (pyStrip str.data).isEmpty = true
    · rw [if_pos he]
      simp
    · rw [if_neg he]
      rcases hrel : matchRelativeTime (pyStrip str.data) with _ | ⟨sg, hrs, mn, sc⟩
      · rcases habs : matchAbsoluteTime (pyStrip str.data) with _ | ⟨hrs, mn, sc⟩
        · rcases hso : matchSecondsOnly (pyStrip str.data) with _ | ⟨sg, ds⟩
          · simp [hrel, habs, hso]
          · simp [hrel, habs, hso]
        · simp only [hrel, habs]
          exact parseTimeComponents_shape none hrs mn sc false
      · simp only [hrel]
        exact parseTimeComponents_shape (some sg) hrs mn sc true

/-- Witness for C8 at `s = 5025` (formatted `"01:23:45"`) and at the
seconds-only input `"+90"`. -/
theorem seek_format_parse_roundtrip_witness :
    parseSeekTime (formatTime ((5025:ℕ):ℚ)) = ⟨true, some ((5025:ℕ):ℚ), none⟩ ∧
    (parseSeekTime "+90").targetPosition.isSome = true := by
  constructor
  · exact seek_format_parse_roundtrip.1 5025 (by norm_num)
  · exact (seek_format_parse_roundtrip.2 "+90").1 (by decide)

end SimiluBot
